import Mathlib

/-!
Shallow embedding of the `plugged` typed plugin-loading layer (`src/lib.rs`),
a thin wrapper over the wasmer WebAssembly engine.  Pure data is translated
directly; the external engine (module compilation, instantiation, the raw
call boundary) is modelled by explicit functions, and the `RefCell<Store>`
borrow discipline is modelled by an explicit borrow flag.  Machine integers
crossing the host/guest boundary are modelled as bit patterns (`Nat`)
truncated at the width of their value-kind tag.
-/

namespace Plugged

/-- Value-kind tags shared by host and engine (wasmer `Type`, restricted to
the numeric kinds used by the supported host type set). -/
inductive ValType
  | i32
  | i64
  | f32
  | f64
deriving DecidableEq, Repr

/-- Bit width of the raw representation of each value kind. -/
def ValType.width : ValType → Nat
  | .i32 => 32
  | .i64 => 64
  | .f32 => 32
  | .f64 => 64

/-- wasmer `FunctionType`: ordered parameter kinds and ordered result kinds.
Equality is structural and ordered (`DecidableEq` on lists). -/
structure FunctionType where
  params : List ValType
  results : List ValType
deriving DecidableEq, Repr

/-- `FunctionType::new(params, results)`. -/
def FunctionType.new (params results : List ValType) : FunctionType :=
  ⟨params, results⟩

/-- The engine's mutable execution context (wasmer `Store`).  Its contents
are engine-internal; we model them as an opaque state word. -/
structure Store where
  state : Nat
deriving DecidableEq, Repr

/-- `Store::default()`, the freshly created context used by `Plugin::new`. -/
def Store.default : Store := ⟨0⟩

/-- A tagged engine value (wasmer `Value`): a value-kind tag plus the bit
pattern of the payload. -/
structure Value where
  ty : ValType
  bits : Nat
deriving DecidableEq, Repr

/-- `Value::from_raw(store, ty, raw)`: tag a raw bit pattern with a value
kind, reading only the low `ty.width` bits of the raw slot. -/
def Value.from_raw (ty : ValType) (raw : Nat) : Value :=
  ⟨ty, raw % 2 ^ ty.width⟩

/-- `Value::as_raw(store)`: the raw bit pattern of a tagged value. -/
def Value.as_raw (v : Value) : Nat := v.bits

/-- wasmer `RuntimeError`: the trap diagnostic reported by the engine when a
guest call fails. -/
structure RuntimeError where
  message : String
deriving DecidableEq, Repr

/-- An exported guest function as seen through the engine (the spec's
`FunctionHandle`, wasmer `Function`): its runtime signature (`f.ty(&store)`)
and its call behaviour (`f.call(&mut store, args)`), which may mutate the
store or trap. -/
structure FunctionHandle where
  ty : FunctionType
  call : Store → List Value → Except RuntimeError (List Value × Store)

/-- wasmer `ExportError`: the export is missing, or exists but is not a
function. -/
inductive ExportError
  | Missing (name : String)
  | IncompatibleType
deriving DecidableEq, Repr

/-- An export of an instantiated module: a function, or some other item
(memory, global, table). -/
inductive Export
  | function (f : FunctionHandle)
  | other

/-- Named export table of an instantiated module (wasmer `Exports`). -/
structure Exports where
  entries : List (String × Export)

/-- First export bound to `name`, if any. -/
def findExport (name : String) : List (String × Export) → Option Export
  | [] => none
  | (k, v) :: rest => if k = name then some v else findExport name rest

/-- `instance.exports.get_function(name)`: fails with `ExportError::Missing`
when no export has that name, and with `ExportError::IncompatibleType` when
the export exists but is not a function. -/
def Exports.get_function (ex : Exports) (name : String) :
    Except ExportError FunctionHandle :=
  match findExport name ex.entries with
  | some (.function f) => .ok f
  | some .other => .error .IncompatibleType
  | none => .error (.Missing name)

/-- An instantiated module (wasmer `Instance`). -/
structure Instance where
  exports : Exports

/-- The diagnostic carried inside the `anyhow::Error` wrapped by
`PluginError::LoadError`: the underlying I/O, compilation, or instantiation
failure, preserved verbatim. -/
inductive LoadDiagnostic
  | ioError (msg : String)
  | compileError (msg : String)
  | instantiateError (msg : String)
deriving DecidableEq, Repr

/-- The crate's error taxonomy (`enum PluginError`). -/
inductive PluginError
  | ExportError (e : ExportError)
  | LoadError (d : LoadDiagnostic)
  | RuntimeError (t : RuntimeError)
  | TypeMismatchError (actual expected : FunctionType)

/-- Dynamic borrow state of a `RefCell`: free, `n + 1` outstanding shared
borrows, or one outstanding exclusive borrow. -/
inductive BorrowFlag
  | free
  | shared (n : Nat)
  | exclusive
deriving DecidableEq, Repr

/-- `std::cell::RefCell`: a value together with its dynamic borrow flag.
`borrow_mut` on a cell whose flag is not `free` panics (fails fast), and
`borrow` on an exclusively borrowed cell panics. -/
structure RefCell (α : Type) where
  value : α
  flag : BorrowFlag
deriving DecidableEq, Repr

/-- `struct Plugin { instance, store }` (the field `instance` is a reserved
word in Lean, so it is named `inst`). -/
structure Plugin where
  inst : Instance
  store : RefCell Store

/-- A compiled, not-yet-instantiated module (wasmer `Module`), opaque to
this layer. -/
structure Module where
  code : List Nat

/-- `Plugin::new`: the load pipeline.  The external steps are passed in
explicitly: `bytes` is the outcome of `std::fs::read`, `compile` is
`Module::new` over the fresh default store, and `instantiate` is
`Instance::new`, which may mutate the store.  Every failure is wrapped as
`PluginError::LoadError` with the underlying diagnostic preserved
(`map_err(anyhow::Error::from)` + `#[error(transparent)]`). -/
def Plugin.new (bytes : Except String (List Nat))
    (compile : List Nat → Except String Module)
    (instantiate : Module → Store → Except String (Instance × Store)) :
    Except PluginError Plugin :=
  match bytes with
  | .error e => .error (.LoadError (.ioError e))
  | .ok bs =>
    match compile bs with
    | .error e => .error (.LoadError (.compileError e))
    | .ok m =>
      match instantiate m Store.default with
      | .error e => .error (.LoadError (.instantiateError e))
      | .ok (i, s) => .ok ⟨i, ⟨s, .free⟩⟩

/-- `struct Function<'plugin, Args, Rets>`: the typed callable returned by a
successful bind.  Its closure captures the verified handle and the two
type-descriptor lists (`Args::wasm_types()` / `Rets::wasm_types()`). -/
structure Function where
  handle : FunctionHandle
  argTypes : List ValType
  retTypes : List ValType

/-- Outcome of `Plugin::function`: a typed callable, a `PluginError`, or the
`RefCell::borrow` panic (only reachable while the store is exclusively
borrowed). -/
inductive BindResult
  | ok (f : Function)
  | err (e : PluginError)
  | borrowPanic

/-- `Plugin::function::<Args, Rets>(name)`: look up the export (fails with
`ExportError` first), read its actual signature under a shared borrow of the
store, compare with the expected signature
`FunctionType::new(Args::wasm_types(), Rets::wasm_types())`, and on a
mismatch fail with `TypeMismatchError { actual, expected }`; on a match,
return the typed callable.  Since `&self` is only read, the returned plugin
state is unchanged on every path. -/
def Plugin.function (p : Plugin) (name : String)
    (argTypes retTypes : List ValType) : BindResult × Plugin :=
  match p.inst.exports.get_function name with
  | .error e => (.err (.ExportError e), p)
  | .ok f =>
    if p.store.flag = .exclusive then (.borrowPanic, p)
    else
      if f.ty ≠ FunctionType.new argTypes retTypes then
        (.err (.TypeMismatchError f.ty (FunctionType.new argTypes retTypes)), p)
      else
        (.ok ⟨f, argTypes, retTypes⟩, p)

/-- The argument-marshalling step of the closure body:
`args.into_array(store)` yields the raw bit patterns in declared order, and
`zip(types).map(Value::from_raw)` tags the i-th raw argument with the i-th
value kind of `Args::wasm_types()`. -/
def marshalArgs (types : List ValType) (raws : List Nat) : List Value :=
  (raws.zip types).map fun p => Value.from_raw p.2 p.1

/-- `Rets::from_slice(store, slice)`: fails iff the slice length differs
from the number of host result types; otherwise reinterprets each raw slot
at the width of the corresponding result kind. -/
def from_slice (types : List ValType) (raws : List Nat) : Option (List Nat) :=
  if raws.length = types.length then
    some ((raws.zip types).map fun p => p.1 % 2 ^ p.2.width)
  else none

/-- Outcome of one invocation of a typed callable: `Ok(rets)` together with
the released store, `Err(RuntimeError)`, the `borrow_mut` panic on a
re-entrant acquisition, or the undefined behaviour of
`unwrap_unchecked` taken on a failed `from_slice`. -/
inductive InvokeResult
  | ok (rets : List Nat) (store : RefCell Store)
  | runtimeError (t : RuntimeError)
  | borrowPanic
  | undefinedBehavior
deriving DecidableEq

/-- The closure body of the callable returned by `Plugin::function`:
acquire the store exclusively (`borrow_mut`, panicking unless the flag is
free), marshal the raw host arguments with `Args::wasm_types()`, call the
verified handle, propagate any trap as `RuntimeError`, and convert the raw
results back with `Rets::from_slice(..).unwrap_unchecked()`.  The whole body
runs under the single exclusive borrow, released on return. -/
def Function.invoke (c : Function) (rc : RefCell Store) (args : List Nat) :
    InvokeResult :=
  if rc.flag = .free then
    match c.handle.call rc.value (marshalArgs c.argTypes args) with
    | .error t => .runtimeError t
    | .ok (results, s) =>
      match from_slice c.retTypes (results.map Value.as_raw) with
      | none => .undefinedBehavior
      | some rets => .ok rets ⟨s, .free⟩
  else .borrowPanic

/-- Modelled from the spec: the repository's example module
`examples/plugins/add.wat` (absent from `src/`, referenced by the tests) and
P1: it exports a pure arithmetic function `add(i32, i32) -> i32`.  The
semantics of the export: wrap-around 32-bit addition of two i32 values. -/
def addSemantics : List Value → Except RuntimeError (List Value)
  | [Value.mk .i32 a, Value.mk .i32 b] => .ok [Value.mk .i32 ((a + b) % 2 ^ 32)]
  | _ => .error ⟨"argument kind mismatch"⟩

/-- Modelled from the spec: the engine handle of the `add` export; it never
reads nor mutates the store. -/
def addHandle : FunctionHandle :=
  ⟨FunctionType.new [.i32, .i32] [.i32],
   fun s vals => Except.map (fun r => (r, s)) (addSemantics vals)⟩

/-- Modelled from the spec: the plugin obtained by loading the `add` module,
in its post-load state (fresh default store, free borrow flag). -/
def addPlugin : Plugin :=
  ⟨⟨⟨[("add", .function addHandle)]⟩⟩, ⟨Store.default, .free⟩⟩

/-- A handle whose every call traps, for exercising the `RuntimeError`
path. -/
def trapHandle : FunctionHandle :=
  ⟨FunctionType.new [] [], fun _ _ => .error ⟨"unreachable"⟩⟩

/-- The engine contract at the call boundary (spec §6,
`FunctionHandle.callRaw`): a successful call returns exactly as many values
as the handle's signature declares results. -/
def conformsToSignature (f : FunctionHandle) : Prop :=
  ∀ s args rets s', f.call s args = .ok (rets, s') →
    rets.length = f.ty.results.length

/-- A pure arithmetic export: its call result depends only on its arguments
and it returns the store unchanged. -/
def pureArith (f : FunctionHandle) : Prop :=
  ∀ s args, f.call s args =
    Except.map (fun r => (r.1, s)) (f.call Store.default args)

/-- Inversion of a successful bind: the callable's handle is the looked-up
export, its runtime signature equals the expected signature derived from the
host types, and the callable captures exactly those type descriptors. -/
theorem bind_ok_inv (p : Plugin) (name : String) (aT rT : List ValType)
    (c : Function) (h : (Plugin.function p name aT rT).1 = .ok c) :
    p.inst.exports.get_function name = .ok c.handle ∧
    c.handle.ty = FunctionType.new aT rT ∧ c.argTypes = aT ∧ c.retTypes = rT := by
  unfold Plugin.function at h
  cases hg : p.inst.exports.get_function name with
  | error e => rw [hg] at h; simp at h
  | ok f =>
    simp only [hg] at h
    by_cases hx : p.store.flag = .exclusive
    · rw [if_pos hx] at h; simp at h
    · rw [if_neg hx] at h
      by_cases hne : f.ty ≠ FunctionType.new aT rT
      · rw [if_pos hne] at h; simp at h
      · rw [if_neg hne] at h
        simp only [BindResult.ok.injEq] at h
        push_neg at hne
        subst h
        exact ⟨rfl, hne, rfl, rfl⟩

/-- The add export conforms to the engine contract: a successful call
returns one value. -/
theorem addHandle_conforms : conformsToSignature addHandle := by
  intro s args rets s' h
  simp only [addHandle] at h
  cases hsem : addSemantics args with
  | error t => rw [hsem] at h; simp [Except.map] at h
  | ok res =>
    rw [hsem] at h
    simp only [Except.map, Except.ok.injEq, Prod.mk.injEq] at h
    match args, hsem with
    | [Value.mk .i32 a, Value.mk .i32 b], hsem =>
      simp only [addSemantics, Except.ok.injEq] at hsem
      subst hsem
      rw [← h.1]
      rfl

/-- The add export is a pure arithmetic export. -/
theorem addHandle_pure : pureArith addHandle := by
  intro s args
  simp only [addHandle]
  cases addSemantics args <;> rfl

/-- C1: binding is verification.  A callable is produced only when the
export's actual runtime signature equals the expected signature derived
from the host types (and the callable captures exactly that verified handle
and those descriptors); conversely, whenever the export exists and the two
signatures differ, `Plugin::function` returns `TypeMismatchError` carrying
both signatures, so no callable is ever produced on that path. -/
theorem binding_is_verification (p : Plugin) (name : String)
    (aT rT : List ValType) :
    (∀ c : Function, (Plugin.function p name aT rT).1 = .ok c →
      p.inst.exports.get_function name = .ok c.handle ∧
      c.handle.ty = FunctionType.new aT rT ∧
      c.argTypes = aT ∧ c.retTypes = rT) ∧
    (∀ f : FunctionHandle, p.inst.exports.get_function name = .ok f →
      p.store.flag ≠ .exclusive → f.ty ≠ FunctionType.new aT rT →
      (Plugin.function p name aT rT).1 =
        .err (.TypeMismatchError f.ty (FunctionType.new aT rT))) := by
  constructor
  · exact fun c h => bind_ok_inv p name aT rT c h
  · intro f hg hx hne
    unfold Plugin.function
    rw [hg]
    simp only [if_neg hx, if_pos hne]

/-- C1 witness: on the add plugin, binding `add` at `(i32, i32) -> i32`
yields a callable whose handle signature equals the expected one, and
binding at `(i32, i64) -> i32` yields the mismatch error with both
signatures. -/
theorem binding_is_verification_witness :
    (addPlugin.inst.exports.get_function "add" = .ok addHandle ∧
      addHandle.ty = FunctionType.new [.i32, .i32] [.i32] ∧
      ([ValType.i32, ValType.i32] : List ValType) = [.i32, .i32] ∧
      ([ValType.i32] : List ValType) = [.i32]) ∧
    (Plugin.function addPlugin "add" [.i32, .i64] [.i32]).1 =
      .err (.TypeMismatchError (FunctionType.new [.i32, .i32] [.i32])
        (FunctionType.new [.i32, .i64] [.i32])) := by
  constructor
  · exact (binding_is_verification addPlugin "add" [.i32, .i32] [.i32]).1
      ⟨addHandle, [.i32, .i32], [.i32]⟩ rfl
  · exact (binding_is_verification addPlugin "add" [.i32, .i64] [.i32]).2
      addHandle rfl (by decide) (by decide)

/-- C2: a name that does not denote a function export fails with
`ExportError` (never `TypeMismatchError`), for every requested pair of host
type lists and every store state: the export lookup precedes the signature
comparison. -/
theorem missing_export_fails_first (p : Plugin) (name : String)
    (aT rT : List ValType) (e : ExportError)
    (h : p.inst.exports.get_function name = .error e) :
    (Plugin.function p name aT rT).1 = .err (.ExportError e) := by
  unfold Plugin.function
  rw [h]

/-- C2 witness: binding the absent export `mul` on the add plugin fails
with `ExportError::Missing`. -/
theorem missing_export_fails_first_witness :
    (Plugin.function addPlugin "mul" [.i32] [.i32]).1 =
      .err (.ExportError (.Missing "mul")) :=
  missing_export_fails_first addPlugin "mul" [.i32] [.i32] (.Missing "mul") rfl

/-- C3: successful round trip.  Binding the `add(i32, i32) -> i32` export
of the loaded add plugin with host types `(i32, i32) -> i32` succeeds, and
invoking the resulting callable with raw arguments `(42, 1)` returns
`Ok(43)` (the store is released in its original state). -/
theorem add_round_trip :
    ∃ c : Function,
      (Plugin.function addPlugin "add" [.i32, .i32] [.i32]).1 = .ok c ∧
      Function.invoke c addPlugin.store [42, 1] =
        .ok [43] ⟨Store.default, .free⟩ :=
  ⟨⟨addHandle, [.i32, .i32], [.i32]⟩, rfl, rfl⟩

/-- C4: every failure of the load pipeline — unreadable file, bytes that do
not compile or validate as a module, or failed instantiation — makes
`Plugin::new` return `LoadError` with the underlying diagnostic preserved,
and no plugin is produced. -/
theorem load_failure_is_load_error (bytes : Except String (List Nat))
    (compile : List Nat → Except String Module)
    (instantiate : Module → Store → Except String (Instance × Store)) :
    (∀ e, bytes = .error e →
      Plugin.new bytes compile instantiate = .error (.LoadError (.ioError e))) ∧
    (∀ bs e, bytes = .ok bs → compile bs = .error e →
      Plugin.new bytes compile instantiate =
        .error (.LoadError (.compileError e))) ∧
    (∀ bs m e, bytes = .ok bs → compile bs = .ok m →
      instantiate m Store.default = .error e →
      Plugin.new bytes compile instantiate =
        .error (.LoadError (.instantiateError e))) := by
  refine ⟨?_, ?_, ?_⟩
  · intro e he; unfold Plugin.new; rw [he]
  · intro bs e hb hc; unfold Plugin.new; simp only [hb]; rw [hc]
  · intro bs m e hb hc hi; unfold Plugin.new; simp only [hb]; rw [hc]; simp only []; rw [hi]

/-- C4 witness: each of the three failure stages at concrete inputs
produces `LoadError` carrying that stage's diagnostic. -/
theorem load_failure_is_load_error_witness :
    Plugin.new (.error "io fail") (fun _ => .error "bad bytes")
        (fun _ _ => .error "inst fail") =
      .error (.LoadError (.ioError "io fail")) ∧
    Plugin.new (.ok []) (fun _ => .error "bad bytes")
        (fun _ _ => .error "inst fail") =
      .error (.LoadError (.compileError "bad bytes")) ∧
    Plugin.new (.ok []) (fun _ => .ok ⟨[]⟩)
        (fun _ _ => .error "inst fail") =
      .error (.LoadError (.instantiateError "inst fail")) := by
  refine ⟨?_, ?_, ?_⟩
  · exact (load_failure_is_load_error (.error "io fail")
      (fun _ => .error "bad bytes") (fun _ _ => .error "inst fail")).1
      "io fail" rfl
  · exact (load_failure_is_load_error (.ok [])
      (fun _ => .error "bad bytes") (fun _ _ => .error "inst fail")).2.1
      [] "bad bytes" rfl rfl
  · exact (load_failure_is_load_error (.ok [])
      (fun _ => .ok ⟨[]⟩) (fun _ _ => .error "inst fail")).2.2
      [] ⟨[]⟩ "inst fail" rfl rfl rfl

/-- C10: binding never mutates the plugin.  On every path — success,
`ExportError`, `TypeMismatchError`, or borrow panic — `Plugin::function`
returns the plugin unchanged, so any sequence of binds leaves the plugin in
its post-load state. -/
theorem bind_leaves_plugin_unchanged (p : Plugin) (name : String)
    (aT rT : List ValType) :
    (Plugin.function p name aT rT).2 = p ∧
    ∀ reqs : List (String × List ValType × List ValType),
      reqs.foldl (fun q r => (Plugin.function q r.1 r.2.1 r.2.2).2) p = p := by
  have h1 : ∀ (q : Plugin) (n : String) (a r : List ValType),
      (Plugin.function q n a r).2 = q := by
    intro q n a r
    unfold Plugin.function
    cases q.inst.exports.get_function n with
    | error e => rfl
    | ok f => by_cases hx : q.store.flag = .exclusive <;>
        by_cases hne : f.ty ≠ FunctionType.new a r <;>
        simp [hx, hne]
  refine ⟨h1 p name aT rT, ?_⟩
  intro reqs
  induction reqs generalizing p with
  | nil => rfl
  | cons x xs ih => rw [List.foldl_cons, h1 p x.1 x.2.1 x.2.2]; exact ih p

/-- Inversion of a successful invocation: the store was free and acquired,
the guest call succeeded on the marshalled arguments, the raw results passed
`from_slice`, and the store was released. -/
theorem invoke_ok_inv (c : Function) (rc : RefCell Store)
    (raws rets : List Nat) (rc' : RefCell Store)
    (h : Function.invoke c rc raws = .ok rets rc') :
    rc.flag = .free ∧ rc'.flag = .free ∧
    ∃ res : List Value,
      c.handle.call rc.value (marshalArgs c.argTypes raws) =
        .ok (res, rc'.value) ∧
      from_slice c.retTypes (res.map Value.as_raw) = some rets := by
  unfold Function.invoke at h
  by_cases hf : rc.flag = .free
  · rw [if_pos hf] at h
    cases hc : c.handle.call rc.value (marshalArgs c.argTypes raws) with
    | error t => simp only [hc] at h; simp at h
    | ok pr =>
      obtain ⟨res, s'⟩ := pr
      simp only [hc] at h
      cases hfs : from_slice c.retTypes (res.map Value.as_raw) with
      | none => simp only [hfs] at h; simp at h
      | some r =>
        simp only [hfs] at h
        simp only [InvokeResult.ok.injEq] at h
        obtain ⟨hr, hrc⟩ := h
        subst hr
        subst hrc
        exact ⟨hf, rfl, res, rfl, hfs⟩
  · rw [if_neg hf] at h; simp at h

/-- C5: on every invocation, the typed host arguments are converted to raw
engine values in declared order: the marshalled list pairs the i-th raw
argument with the i-th value-kind tag of `Args::wasm_types()`, the
conversion is exact (raw round trip) and total for every supported kind,
the guest is observationally invoked with exactly the marshalled list, and
`Args::wasm_types()` is the very list the expected signature was derived
from at bind time. -/
theorem invoke_marshals_arguments (aT : List ValType) (raws : List Nat)
    (hlen : raws.length = aT.length) :
    (marshalArgs aT raws).length = aT.length ∧
    (∀ (i : Nat) (h1 : i < (marshalArgs aT raws).length) (h2 : i < aT.length)
        (h3 : i < raws.length),
      (marshalArgs aT raws).get ⟨i, h1⟩ =
        Value.from_raw (aT.get ⟨i, h2⟩) (raws.get ⟨i, h3⟩)) ∧
    (∀ (t : ValType) (b : Nat), b < 2 ^ t.width →
      (Value.from_raw t b).as_raw = b ∧ (Value.from_raw t b).ty = t) ∧
    (∀ (g g' : FunctionHandle) (rT : List ValType) (rc : RefCell Store),
      (∀ s, g.call s (marshalArgs aT raws) = g'.call s (marshalArgs aT raws)) →
      Function.invoke ⟨g, aT, rT⟩ rc raws =
        Function.invoke ⟨g', aT, rT⟩ rc raws) ∧
    (∀ (p : Plugin) (name : String) (rT : List ValType) (c : Function),
      (Plugin.function p name aT rT).1 = .ok c → c.argTypes = aT) := by
  refine ⟨?_, ?_, ?_, ?_, ?_⟩
  · simp [marshalArgs, hlen]
  · intro i h1 h2 h3
    simp [marshalArgs, List.get_eq_getElem, List.getElem_map, List.getElem_zip]
  · intro t b hb
    exact ⟨Nat.mod_eq_of_lt hb, rfl⟩
  · intro g g' rT rc hagree
    simp only [Function.invoke]
    by_cases hf : rc.flag = .free
    · rw [if_pos hf, if_pos hf, hagree rc.value]
    · rw [if_neg hf, if_neg hf]
  · intro p name rT c h
    exact (bind_ok_inv p name aT rT c h).2.2.1

/-- C5 witness: the marshalled argument list for `(i32, i32)` and raw
arguments `(42, 1)` has length two, and the conversion of 42 at kind i32 is
exact. -/
theorem invoke_marshals_arguments_witness :
    (marshalArgs [ValType.i32, ValType.i32] [42, 1]).length =
      ([ValType.i32, ValType.i32] : List ValType).length ∧
    (Value.from_raw ValType.i32 42).as_raw = 42 := by
  constructor
  · exact (invoke_marshals_arguments [ValType.i32, ValType.i32] [42, 1]
      (by decide)).1
  · exact ((invoke_marshals_arguments [ValType.i32, ValType.i32] [42, 1]
      (by decide)).2.2.1 ValType.i32 42 (by decide)).1

/-- C6: for a callable produced by a successful bind, against an engine
that returns as many results as the export's signature declares, the
`unwrap_unchecked` on `Rets::from_slice` can never take its failure branch:
no invocation reaches the undefined-behaviour outcome. -/
theorem verified_bind_never_ub (p : Plugin) (name : String)
    (aT rT : List ValType) (c : Function)
    (hbind : (Plugin.function p name aT rT).1 = .ok c)
    (hconf : conformsToSignature c.handle)
    (rc : RefCell Store) (args : List Nat) :
    Function.invoke c rc args ≠ .undefinedBehavior := by
  obtain ⟨-, hty, -, hrT⟩ := bind_ok_inv p name aT rT c hbind
  unfold Function.invoke
  by_cases hf : rc.flag = .free
  · rw [if_pos hf]
    cases hc : c.handle.call rc.value (marshalArgs c.argTypes args) with
    | error t => simp
    | ok pr =>
      obtain ⟨rets, s'⟩ := pr
      have hlen := hconf rc.value _ rets s' hc
      rw [hty] at hlen
      have hne : from_slice c.retTypes (rets.map Value.as_raw) ≠ none := by
        simp [from_slice, hlen, hrT, FunctionType.new]
      obtain ⟨r, hfs⟩ := Option.ne_none_iff_exists'.mp hne
      simp [hfs]
  · rw [if_neg hf]; simp

/-- C6 witness: the callable bound from the add plugin never reaches the
undefined-behaviour outcome at concrete inputs. -/
theorem verified_bind_never_ub_witness :
    Function.invoke ⟨addHandle, [.i32, .i32], [.i32]⟩
      ⟨Store.default, .free⟩ [42, 1] ≠ .undefinedBehavior :=
  verified_bind_never_ub addPlugin "add" [.i32, .i32] [.i32]
    ⟨addHandle, [.i32, .i32], [.i32]⟩ rfl addHandle_conforms
    ⟨Store.default, .free⟩ [42, 1]

/-- C7: when the guest traps, the invocation returns `RuntimeError`
carrying the engine's trap diagnostic unchanged, and no result conversion
takes place: the outcome is the same for every result-type descriptor. -/
theorem trap_propagates_as_runtime_error (c : Function) (rc : RefCell Store)
    (raws : List Nat) (t : RuntimeError)
    (hfree : rc.flag = .free)
    (htrap : c.handle.call rc.value (marshalArgs c.argTypes raws) = .error t) :
    Function.invoke c rc raws = .runtimeError t ∧
    ∀ rT' : List ValType,
      Function.invoke ⟨c.handle, c.argTypes, rT'⟩ rc raws = .runtimeError t := by
  constructor
  · unfold Function.invoke
    rw [if_pos hfree]
    simp only [htrap]
  · intro rT'
    simp only [Function.invoke]
    rw [if_pos hfree]
    simp only [htrap]

/-- C7 witness: invoking a callable over an always-trapping export returns
the engine's trap diagnostic as `RuntimeError`. -/
theorem trap_propagates_as_runtime_error_witness :
    Function.invoke ⟨trapHandle, [], []⟩ ⟨Store.default, .free⟩ [] =
      .runtimeError ⟨"unreachable"⟩ :=
  (trap_propagates_as_runtime_error ⟨trapHandle, [], []⟩
    ⟨Store.default, .free⟩ [] ⟨"unreachable"⟩ rfl rfl).1

/-- C8: every invocation holds the plugin's single execution context
exclusively for the whole call: a re-entrant attempt on an already-held
context fails fast (the `borrow_mut` panic), for every callable over that
context, and a successful call both found the context free and released it
free. -/
theorem invoke_exclusive_context (c : Function) (rc : RefCell Store)
    (raws : List Nat) :
    (rc.flag ≠ .free →
      Function.invoke c rc raws = .borrowPanic ∧
      ∀ c' : Function, Function.invoke c' rc raws = .borrowPanic) ∧
    (∀ (rets : List Nat) (rc' : RefCell Store),
      Function.invoke c rc raws = .ok rets rc' →
      rc.flag = .free ∧ rc'.flag = .free) := by
  constructor
  · intro hheld
    constructor
    · unfold Function.invoke; rw [if_neg hheld]
    · intro c'; unfold Function.invoke; rw [if_neg hheld]
  · intro rets rc' h
    obtain ⟨hf, hf', -⟩ := invoke_ok_inv c rc raws rets rc' h
    exact ⟨hf, hf'⟩

/-- C8 witness: a re-entrant invocation against an exclusively held context
fails fast, and a successful invocation found and left the context free. -/
theorem invoke_exclusive_context_witness :
    Function.invoke ⟨addHandle, [.i32, .i32], [.i32]⟩
      ⟨Store.default, .exclusive⟩ [42, 1] = .borrowPanic ∧
    ((⟨Store.default, .free⟩ : RefCell Store).flag = .free ∧
      (⟨Store.default, .free⟩ : RefCell Store).flag = .free) :=
  ⟨((invoke_exclusive_context ⟨addHandle, [.i32, .i32], [.i32]⟩
      ⟨Store.default, .exclusive⟩ [42, 1]).1 (by decide)).1,
   (invoke_exclusive_context ⟨addHandle, [.i32, .i32], [.i32]⟩
      ⟨Store.default, .free⟩ [42, 1]).2 [43] ⟨Store.default, .free⟩ rfl⟩

/-- C9: determinism for a pure arithmetic export.  A successful invocation
leaves the execution context exactly as it was, and repeating the
invocation with the same arguments on that unmodified context returns the
same result. -/
theorem pure_invoke_deterministic (c : Function) (rc rc' : RefCell Store)
    (raws rets : List Nat)
    (hpure : pureArith c.handle)
    (h1 : Function.invoke c rc raws = .ok rets rc') :
    rc' = rc ∧ Function.invoke c rc' raws = .ok rets rc' := by
  obtain ⟨hf, hf', res, hc, -⟩ := invoke_ok_inv c rc raws rets rc' h1
  have hp := hpure rc.value (marshalArgs c.argTypes raws)
  rw [hc] at hp
  have hsv : rc'.value = rc.value := by
    cases hd : c.handle.call Store.default (marshalArgs c.argTypes raws) with
    | error t => rw [hd] at hp; simp [Except.map] at hp
    | ok pr0 => rw [hd] at hp; simp [Except.map] at hp; exact hp.2
  have hrc2 : rc' = rc := by
    cases rc' with
    | mk v' fl' =>
      simp only at hsv hf'
      rw [hsv, hf', ← hf]
  refine ⟨hrc2, ?_⟩
  rw [hrc2] at h1 ⊢
  exact h1

/-- C9 witness: the add callable invoked twice from the same released
context returns the same result; concretely its first invocation at
`(42, 1)` is reproduced by the theorem. -/
theorem pure_invoke_deterministic_witness :
    Function.invoke ⟨addHandle, [.i32, .i32], [.i32]⟩
      ⟨Store.default, .free⟩ [42, 1] = .ok [43] ⟨Store.default, .free⟩ :=
  (pure_invoke_deterministic ⟨addHandle, [.i32, .i32], [.i32]⟩
    ⟨Store.default, .free⟩ ⟨Store.default, .free⟩ [42, 1] [43]
    addHandle_pure rfl).2

end Plugged
